import Mathlib

/-!
Verification of the django-xtdb adapter (src/django_xtdb/{patch,compiler,base}.py)
against its natural-language specification.

The adapter's observable behaviour towards the store is modelled as a trace of
events on the low-level connection: setting the read-only flag, opening and
closing a transaction, and executing a SQL statement.  Pure computations
(field patching, SQL text generation) are modelled as Lean functions.
-/

/-- An observable action on the low-level store connection. -/
inductive Ev where
  | set_read_only (b : Bool)
  | tx_begin
  | exec (sql : String)
  | tx_commit
  deriving DecidableEq, Repr

/-! ## patch.py: field patching and the primary-key default -/

/-- A field default, as `patch.py` sees it: Django's `NOT_PROVIDED` sentinel,
a caller-supplied default value, or the `time.time_ns` function that
`contribute_to_class` installs. -/
inductive FieldDefault where
  | not_provided
  | user (v : Int)
  | time_ns
  deriving DecidableEq, Repr

def FieldDefault.isNotProvided : FieldDefault → Bool
  | .not_provided => true
  | _ => false

/-- The slice of `django.db.models.ForeignObjectRel` that `contribute_to_class`
inspects: whether the relation is a parent link (single-table inheritance). -/
structure RemoteField where
  parent_link : Bool
  deriving DecidableEq, Repr

/-- The slice of a Django `Field` that `patch.contribute_to_class` reads and
mutates. -/
structure ModelField where
  primary_key : Bool
  db_column : Option String
  db_default : FieldDefault
  is_auto_field : Bool
  db_returning : Bool
  remote_field : Option RemoteField
  deriving DecidableEq, Repr

/-- `patch.is_xtdb_model`: the model is routed to the XTDB backend iff the
database engine of its write database is `django_xtdb`. -/
def is_xtdb_model (engine : String) : Bool :=
  if engine == "django_xtdb" then true else false

/-- `patch.contribute_to_class`, the monkey-patched `Field.contribute_to_class`:
primary keys on XTDB models get the physical column `_id`; auto fields among
them with no caller default additionally get `time.time_ns` as default and
`db_returning = False`; parent-link back-references also get column `_id`. -/
def contribute_to_class (engine : String) (f : ModelField) : ModelField :=
  let f :=
    if f.primary_key && is_xtdb_model engine then
      let f := { f with db_column := some "_id" }
      if f.db_default.isNotProvided && f.is_auto_field then
        { f with db_default := FieldDefault.time_ns, db_returning := false }
      else
        f
    else
      f
  match f.remote_field with
  | some rf =>
      if rf.parent_link && is_xtdb_model engine then
        { f with db_column := some "_id" }
      else
        f
  | none => f

/-- `time.time_ns` modelled as reading a process clock: `clock t` is the number
of nanoseconds since the Unix epoch that the clock reports at process instant
`t`. -/
def time_time_ns (clock : Nat → Nat) (t : Nat) : Nat := clock t

/-- Evaluating a field default at insert time, as the ORM does for a field
whose value the caller did not supply: `NOT_PROVIDED` yields no value, a
caller-supplied constant yields itself, and the installed `time.time_ns`
default is called, reading the clock. -/
def eval_default (clock : Nat → Nat) (t : Nat) : FieldDefault → Option Int
  | .not_provided => none
  | .user v => some v
  | .time_ns => some (time_time_ns clock t : Nat)

/-! ## compiler.py: per-statement mode and transaction wrapping -/

/-- The common wrapping pattern of the four `execute_sql` overrides in
`compiler.py`: if a low-level connection object is present, set its
`read_only` flag and run the base execution inside a transaction; otherwise
run the base execution as-is. -/
def wrap_mode_tx (hasConn : Bool) (read_only : Bool) (base : List Ev) : List Ev :=
  if hasConn then
    Ev.set_read_only read_only :: Ev.tx_begin :: base ++ [Ev.tx_commit]
  else
    base

/-- `compiler.SQLCompiler.execute_sql` (SELECT): read-only wrapping, returning
the base result unchanged. -/
def SQLCompiler.execute_sql (hasConn : Bool) (base : List Ev) (ret : Int) :
    List Ev × Int :=
  (wrap_mode_tx hasConn true base, ret)

/-- `compiler.SQLInsertCompiler.execute_sql`: write wrapping, returning the
base result unchanged. -/
def SQLInsertCompiler.execute_sql (hasConn : Bool) (base : List Ev) (ret : Int) :
    List Ev × Int :=
  (wrap_mode_tx hasConn false base, ret)

/-- `compiler.SQLUpdateCompiler.execute_sql`: write wrapping; the store's
reported row count (if any) is discarded and the constant 1 is returned. -/
def SQLUpdateCompiler.execute_sql (hasConn : Bool) (base : List Ev)
    (_store_rowcount : Option Int) : List Ev × Int :=
  (wrap_mode_tx hasConn false base, 1)

/-- `compiler.SQLDeleteCompiler.execute_sql`: write wrapping, returning the
base result unchanged. -/
def SQLDeleteCompiler.execute_sql (hasConn : Bool) (base : List Ev) (ret : Int) :
    List Ev × Int :=
  (wrap_mode_tx hasConn false base, ret)

/-- An output column of a SELECT projection: the source (table, column) pair. -/
structure SelectCol where
  table : String
  column : String
  deriving DecidableEq, Repr

/-- The name under which an output column appears in the projection: either its
bare unqualified column name, or the distinct positional alias attached by the
base compiler. -/
inductive OutName where
  | plain (s : String)
  | aliased (i : Nat)
  deriving DecidableEq, Repr

/-- Modelled from the spec: the base ORM compiler `as_sql` (which lives in
Django, not in this repository) produces the projection of a SELECT; when
`with_col_aliases` is set it attaches to every output column a distinct
positional alias, and when it is not set the columns appear under their bare
unqualified names, which may collide across joined tables. -/
def base_as_sql (cols : List SelectCol) (_with_limits : Bool)
    (with_col_aliases : Bool) : List (SelectCol × OutName) :=
  if with_col_aliases then
    (cols.zip (List.range cols.length)).map fun p => (p.1, OutName.aliased p.2)
  else
    cols.map fun c => (c, OutName.plain c.column)

/-- `compiler.SQLCompiler.as_sql`: delegates to the base compiler forcing
`with_col_aliases=True`, whatever the caller passed. -/
def SQLCompiler.as_sql (cols : List SelectCol) (with_limits : Bool)
    (_with_col_aliases : Bool) : List (SelectCol × OutName) :=
  base_as_sql cols with_limits true

/-- A statement category, as the per-category compilers distinguish them. -/
inductive StmtKind where
  | select
  | insert
  | update
  | delete
  deriving DecidableEq, Repr

def StmtKind.is_write : StmtKind → Bool
  | .select => false
  | _ => true

/-- The mode-violation error of the spec's error-handling design. -/
inductive ModeViolation where
  | mk
  deriving DecidableEq, Repr

/-- Modelled from the spec: the store-facing connection rejects a statement
whose category does not match the session's read-only/write mode with a
`ModeViolation` error rather than silently succeeding.  This enforcement lives
in the XTDB store and driver, not in this repository's sources; the sources
only set the mode before each statement. -/
def conn_exec_stmt (read_only : Bool) (k : StmtKind) : Except ModeViolation Unit :=
  if k.is_write == read_only then
    Except.error ModeViolation.mk
  else
    Except.ok ()

/-! ## base.py: schema editor, introspection, flush -/

/-- The state the schema editor could touch: the store's tables and the
connection's read-only flag. -/
structure ConnState where
  store_tables : List String
  read_only : Bool
  deriving DecidableEq, Repr

/-- `base.DatabaseSchemaEditor.create_model`: a no-op returning no SQL. -/
def DatabaseSchemaEditor.create_model (σ : ConnState) (_model : String) :
    ConnState × List Ev :=
  (σ, [])

/-- `base.DatabaseSchemaEditor.alter_unique_together`: a no-op. -/
def DatabaseSchemaEditor.alter_unique_together (σ : ConnState)
    (_args : List String) : ConnState × List Ev :=
  (σ, [])

/-- `base.DatabaseSchemaEditor.remove_field`: a no-op. -/
def DatabaseSchemaEditor.remove_field (σ : ConnState) (_args : List String) :
    ConnState × List Ev :=
  (σ, [])

/-- `base.DatabaseSchemaEditor.alter_field`: a no-op. -/
def DatabaseSchemaEditor.alter_field (σ : ConnState) (_args : List String) :
    ConnState × List Ev :=
  (σ, [])

/-- `base.DatabaseSchemaEditor.add_field`: a no-op. -/
def DatabaseSchemaEditor.add_field (σ : ConnState) (_args : List String) :
    ConnState × List Ev :=
  (σ, [])

/-- The table descriptor `TableInfo(name, type)` that introspection returns. -/
structure TableInfo where
  name : String
  ttype : String
  deriving DecidableEq, Repr

/-- The exact query text issued by `base.DatabaseIntrospection.get_table_list`. -/
def pg_table_query : String :=
  "SELECT tablename FROM pg_tables where schemaname = 'public'"

/-- `base.DatabaseIntrospection.get_table_list`: sets the connection read-only,
and inside a transaction executes the fixed pg_tables query, mapping every
fetched row to a `TableInfo` of kind "t".  `rows` is what the store returns
for the query. -/
def DatabaseIntrospection.get_table_list (rows : List String) :
    List Ev × List TableInfo :=
  ([Ev.set_read_only true, Ev.tx_begin, Ev.exec pg_table_query, Ev.tx_commit],
   rows.map fun r => { name := r, ttype := "t" })

/-- `quote_name` inherited from the PostgreSQL operations (Django code, not in
this repository): wrap the identifier in double quotes unless it is already
quoted. -/
def quote_name (name : String) : String :=
  if name.startsWith "\"" && name.endsWith "\"" then
    name
  else
    "\"" ++ name ++ "\""

/-- `base.DatabaseOperations.sequence_reset_sql`: always the empty list. -/
def DatabaseOperations.sequence_reset_sql (_model_list : List String) :
    List String :=
  []

/-- `base.DatabaseOperations.sql_flush`: one `DELETE FROM <quoted table>;`
statement per table, in the order given (the plain style functions
`SQL_KEYWORD` and `SQL_FIELD` are the identity). -/
def DatabaseOperations.sql_flush (tables : List String) : List String :=
  tables.map fun table =>
    "DELETE" ++ " " ++ "FROM" ++ " " ++ quote_name table ++ ";"

/-- `base.DatabaseOperations.execute_sql_flush`: set the connection to write
mode and execute every statement of the list inside one transaction. -/
def DatabaseOperations.execute_sql_flush (sql_list : List String) : List Ev :=
  Ev.set_read_only false :: Ev.tx_begin :: sql_list.map Ev.exec ++ [Ev.tx_commit]

/-! ## Helper lemmas -/

/-- On an XTDB model, patching a primary-key auto field with no caller default
renames its column to `_id`, installs `time.time_ns` and clears
`db_returning`. -/
theorem contribute_pk_auto_eq (engine : String) (f : ModelField)
    (hx : is_xtdb_model engine = true) (hpk : f.primary_key = true)
    (hauto : f.is_auto_field = true)
    (hdef : f.db_default = FieldDefault.not_provided) :
    (contribute_to_class engine f).db_column = some "_id" ∧
    (contribute_to_class engine f).db_default = FieldDefault.time_ns ∧
    (contribute_to_class engine f).db_returning = false := by
  rcases f with ⟨pk, col, dflt, auto, ret, rfield⟩
  simp only [ModelField.primary_key] at hpk
  simp only [ModelField.is_auto_field] at hauto
  simp only [ModelField.db_default] at hdef
  subst hpk hauto hdef
  rcases rfield with _ | ⟨pl⟩
  · simp [contribute_to_class, hx, FieldDefault.isNotProvided]
  · cases pl
    all_goals simp [contribute_to_class, hx, FieldDefault.isNotProvided]

/-- On an XTDB model, patching a parent-link back-reference field renames its
column to `_id`. -/
theorem contribute_parent_link_eq (engine : String) (f : ModelField)
    (rf : RemoteField) (hx : is_xtdb_model engine = true)
    (hrf : f.remote_field = some rf) (hpl : rf.parent_link = true) :
    (contribute_to_class engine f).db_column = some "_id" := by
  rcases f with ⟨pk, col, dflt, auto, ret, rfield⟩
  rcases rf with ⟨pl⟩
  simp only [ModelField.remote_field] at hrf
  simp only [RemoteField.parent_link] at hpl
  subst hrf hpl
  cases pk <;> cases auto <;> cases dflt <;>
    simp [contribute_to_class, hx, FieldDefault.isNotProvided]

/-! ## Claim theorems -/

/-- C1: for every primary-key field of the auto-identifier kind with no
caller-supplied default on a model routed to the XTDB backend,
`contribute_to_class` renames the physical column to `_id`, installs the
nanosecond-timestamp default and clears `db_returning`; and any parent-link
back-reference field on such a model is likewise renamed to `_id`. -/
theorem contribute_to_class_xtdb_spec (engine : String) (f : ModelField)
    (hx : is_xtdb_model engine = true) :
    (f.primary_key = true → f.is_auto_field = true →
      f.db_default = FieldDefault.not_provided →
      (contribute_to_class engine f).db_column = some "_id" ∧
      (contribute_to_class engine f).db_default = FieldDefault.time_ns ∧
      (contribute_to_class engine f).db_returning = false) ∧
    (∀ rf : RemoteField, f.remote_field = some rf → rf.parent_link = true →
      (contribute_to_class engine f).db_column = some "_id") := by
  constructor
  · intro hpk hauto hdef
    exact contribute_pk_auto_eq engine f hx hpk hauto hdef
  · intro rf hrf hpl
    exact contribute_parent_link_eq engine f rf hx hrf hpl

/-- C1 witness: a concrete auto primary-key field on the XTDB engine gets
column `_id`. -/
theorem contribute_to_class_xtdb_spec_witness :
    (contribute_to_class "django_xtdb"
      (ModelField.mk true none FieldDefault.not_provided true true
        none)).db_column = some "_id" :=
  ((contribute_to_class_xtdb_spec "django_xtdb"
      (ModelField.mk true none FieldDefault.not_provided true true none)
      rfl).1 rfl rfl rfl).1

/-- C2: an insert without a caller-supplied identifier draws its identifier
from the installed nanosecond-timestamp default; provided the process clock is
positive, below 2^64 and monotone, any two identifiers allocated at ordered
instants are positive 64-bit integers with the later one numerically ≥ the
earlier one. -/
theorem allocated_ids_positive_64bit_monotone (engine : String)
    (f : ModelField) (clock : Nat → Nat)
    (hx : is_xtdb_model engine = true) (hpk : f.primary_key = true)
    (hauto : f.is_auto_field = true)
    (hdef : f.db_default = FieldDefault.not_provided)
    (hpos : ∀ t, 0 < clock t) (hbound : ∀ t, clock t < 2 ^ 64)
    (hmono : ∀ s t, s ≤ t → clock s ≤ clock t)
    (t1 t2 : Nat) (h12 : t1 ≤ t2) :
    ∃ i1 i2 : Int,
      eval_default clock t1 (contribute_to_class engine f).db_default =
        some i1 ∧
      eval_default clock t2 (contribute_to_class engine f).db_default =
        some i2 ∧
      0 < i1 ∧ i1 < 2 ^ 64 ∧ 0 < i2 ∧ i2 < 2 ^ 64 ∧ i1 ≤ i2 := by
  have hdf : (contribute_to_class engine f).db_default = FieldDefault.time_ns :=
    (contribute_pk_auto_eq engine f hx hpk hauto hdef).2.1
  refine ⟨(clock t1 : Int), (clock t2 : Int), ?_, ?_, ?_, ?_, ?_, ?_, ?_⟩
  · rw [hdf]; rfl
  · rw [hdf]; rfl
  · exact_mod_cast hpos t1
  · exact_mod_cast hbound t1
  · exact_mod_cast hpos t2
  · exact_mod_cast hbound t2
  · exact_mod_cast hmono t1 t2 h12

/-- C2 witness: at a concrete constant clock, two ordered allocations are
positive, 64-bit and ordered. -/
theorem allocated_ids_positive_64bit_monotone_witness :
    ∃ i1 i2 : Int,
      eval_default (fun _ => 1) 0 (contribute_to_class "django_xtdb"
        (ModelField.mk true none FieldDefault.not_provided true true
          none)).db_default = some i1 ∧
      eval_default (fun _ => 1) 1 (contribute_to_class "django_xtdb"
        (ModelField.mk true none FieldDefault.not_provided true true
          none)).db_default = some i2 ∧
      0 < i1 ∧ i1 < 2 ^ 64 ∧ 0 < i2 ∧ i2 < 2 ^ 64 ∧ i1 ≤ i2 :=
  allocated_ids_positive_64bit_monotone "django_xtdb"
    (ModelField.mk true none FieldDefault.not_provided true true none)
    (fun _ => 1) rfl rfl rfl rfl (fun _ => Nat.one_pos)
    (fun _ => by norm_num) (fun _ _ _ => Nat.le_refl 1) 0 1 (Nat.zero_le 1)

/-- C3: the update compiler's `execute_sql` reports an affected-row count of
exactly 1, whatever the store reported and whether or not a connection was
present. -/
theorem update_rowcount_constant_one (hasConn : Bool) (base : List Ev)
    (store_rowcount : Option Int) :
    (SQLUpdateCompiler.execute_sql hasConn base store_rowcount).2 = 1 := rfl

/-- C4: every DDL operation of the schema editor succeeds, issues zero SQL
statements, and leaves the connection state unchanged. -/
theorem schema_editor_ddl_noops (σ : ConnState) (m : String)
    (a b c d : List String) :
    DatabaseSchemaEditor.create_model σ m = (σ, []) ∧
    DatabaseSchemaEditor.alter_unique_together σ a = (σ, []) ∧
    DatabaseSchemaEditor.remove_field σ b = (σ, []) ∧
    DatabaseSchemaEditor.alter_field σ c = (σ, []) ∧
    DatabaseSchemaEditor.add_field σ d = (σ, []) :=
  ⟨rfl, rfl, rfl, rfl, rfl⟩

/-- C5 counterexample: when no low-level connection object is present, a
SELECT statement is executed with no read-only flag set and no transaction
opened, so the wrapping does not happen before every statement. -/
theorem select_unwrapped_without_connection :
    (SQLCompiler.execute_sql false [Ev.exec "SELECT 1"] 0).1 =
      [Ev.exec "SELECT 1"] ∧
    Ev.set_read_only true ∉
      (SQLCompiler.execute_sql false [Ev.exec "SELECT 1"] 0).1 ∧
    Ev.tx_begin ∉ (SQLCompiler.execute_sql false [Ev.exec "SELECT 1"] 0).1 := by
  refine ⟨rfl, ?_, ?_⟩ <;> decide

/-- C5 (amended): whenever a low-level connection object is present, each
compiler's `execute_sql` first sets the connection's read-only flag to match
the statement category — read-only for SELECT, write for INSERT, UPDATE and
DELETE — and runs the base execution inside a transaction. -/
theorem mode_and_tx_wrapping_with_connection (base : List Ev) (ret : Int)
    (store_rowcount : Option Int) :
    (SQLCompiler.execute_sql true base ret).1 =
      Ev.set_read_only true :: Ev.tx_begin :: base ++ [Ev.tx_commit] ∧
    (SQLInsertCompiler.execute_sql true base ret).1 =
      Ev.set_read_only false :: Ev.tx_begin :: base ++ [Ev.tx_commit] ∧
    (SQLUpdateCompiler.execute_sql true base store_rowcount).1 =
      Ev.set_read_only false :: Ev.tx_begin :: base ++ [Ev.tx_commit] ∧
    (SQLDeleteCompiler.execute_sql true base ret).1 =
      Ev.set_read_only false :: Ev.tx_begin :: base ++ [Ev.tx_commit] := by
  refine ⟨?_, ?_, ?_, ?_⟩ <;> rfl

/-- C6: for each statement category, the mode-and-transaction wrapping happens
exactly when a low-level connection object is present; when it is absent the
statement is executed anyway, with no flag set and no transaction opened. -/
theorem wrapping_iff_connection_present (hasConn : Bool) (base : List Ev)
    (ret : Int) (store_rowcount : Option Int) :
    (SQLCompiler.execute_sql hasConn base ret).1 =
      (if hasConn then
        Ev.set_read_only true :: Ev.tx_begin :: base ++ [Ev.tx_commit]
      else base) ∧
    (SQLInsertCompiler.execute_sql hasConn base ret).1 =
      (if hasConn then
        Ev.set_read_only false :: Ev.tx_begin :: base ++ [Ev.tx_commit]
      else base) ∧
    (SQLUpdateCompiler.execute_sql hasConn base store_rowcount).1 =
      (if hasConn then
        Ev.set_read_only false :: Ev.tx_begin :: base ++ [Ev.tx_commit]
      else base) ∧
    (SQLDeleteCompiler.execute_sql hasConn base ret).1 =
      (if hasConn then
        Ev.set_read_only false :: Ev.tx_begin :: base ++ [Ev.tx_commit]
      else base) := by
  cases hasConn <;>
    exact ⟨rfl, rfl, rfl, rfl⟩

/-- C7: issuing a write statement while the connection is in read-only mode,
or a read statement while it is in write mode, fails with a `ModeViolation`
error. -/
theorem mode_mismatch_fails (read_only : Bool) (k : StmtKind)
    (h : (k.is_write = true ∧ read_only = true) ∨
      (k.is_write = false ∧ read_only = false)) :
    conn_exec_stmt read_only k = Except.error ModeViolation.mk := by
  rcases h with ⟨h1, h2⟩ | ⟨h1, h2⟩ <;> subst h2 <;>
    simp [conn_exec_stmt, h1]

/-- C7 witness: an INSERT issued in read-only mode fails with
`ModeViolation`. -/
theorem mode_mismatch_fails_witness :
    conn_exec_stmt true StmtKind.insert = Except.error ModeViolation.mk :=
  mode_mismatch_fails true StmtKind.insert (Or.inl ⟨rfl, rfl⟩)

/-- C8: `SQLCompiler.as_sql` always compiles with column aliases forced on,
whatever the caller passed, and in the resulting projection no two output
columns share a name. -/
theorem as_sql_forces_distinct_aliases (cols : List SelectCol)
    (with_limits with_col_aliases : Bool) :
    SQLCompiler.as_sql cols with_limits with_col_aliases =
      base_as_sql cols with_limits true ∧
    ((SQLCompiler.as_sql cols with_limits with_col_aliases).map
      Prod.snd).Nodup := by
  refine ⟨rfl, ?_⟩
  show ((base_as_sql cols with_limits true).map Prod.snd).Nodup
  have hz : ((cols.zip (List.range cols.length)).map Prod.snd) =
      List.range cols.length :=
    List.map_snd_zip _ _ (by simp)
  have hnames : ((base_as_sql cols with_limits true).map Prod.snd) =
      (List.range cols.length).map OutName.aliased := by
    simp only [base_as_sql, if_pos, List.map_map]
    calc (cols.zip (List.range cols.length)).map
          (Prod.snd ∘ fun p => (p.1, OutName.aliased p.2))
        = (cols.zip (List.range cols.length)).map
            (OutName.aliased ∘ Prod.snd) := rfl
      _ = ((cols.zip (List.range cols.length)).map Prod.snd).map
            OutName.aliased := by rw [List.map_map]
      _ = (List.range cols.length).map OutName.aliased := by rw [hz]
  rw [hnames]
  exact (List.nodup_range _).map fun i j hij => by
    simpa using hij

/-- C9 counterexample: the introspection query issued by `get_table_list` is
not the claimed text with an upper-case `WHERE`; the code writes the keyword
in lower case. -/
theorem get_table_list_query_text_differs :
    Ev.exec "SELECT tablename FROM pg_tables WHERE schemaname = 'public'" ∉
      (DatabaseIntrospection.get_table_list ["a"]).1 := by
  decide

/-- C9 (amended): listing tables issues exactly the introspection query
`SELECT tablename FROM pg_tables where schemaname = 'public'` with the
connection set read-only inside a transaction, and returns every fetched row
as a table descriptor of plain-table kind "t", never as a view. -/
theorem get_table_list_trace_and_result (rows : List String) :
    DatabaseIntrospection.get_table_list rows =
      ([Ev.set_read_only true, Ev.tx_begin,
        Ev.exec "SELECT tablename FROM pg_tables where schemaname = 'public'",
        Ev.tx_commit],
       rows.map fun r => { name := r, ttype := "t" }) := rfl

/-- C10: bulk delete-all produces one `DELETE FROM <quoted table>;` statement
per table in the order given, and executes them all in write mode inside one
transaction. -/
theorem sql_flush_statements_and_trace (tables : List String) :
    DatabaseOperations.sql_flush tables =
      tables.map (fun table => "DELETE FROM " ++ quote_name table ++ ";") ∧
    DatabaseOperations.execute_sql_flush (DatabaseOperations.sql_flush tables) =
      Ev.set_read_only false :: Ev.tx_begin ::
        (tables.map fun table =>
          Ev.exec ("DELETE FROM " ++ quote_name table ++ ";")) ++
        [Ev.tx_commit] := by
  refine ⟨rfl, ?_⟩
  simp only [DatabaseOperations.execute_sql_flush, DatabaseOperations.sql_flush,
    List.map_map]
  rfl
